import Mathlib

/-!
Verification of the realtime annotation/session-sync core of the
eigen-playground repository (shallow embedding of the TypeScript source).

The authoritative per-anchor conversation state is the `bubbleMessages`
record kept by the `FlowingDoc` component: each anchor id maps to
`{ userComment, aiReply?, conversationHistory? }` where the history is a
list of `{role: 'user' | 'ai', content}` entries.  The functions below are
direct translations of the state-updater closures in the source
(`src/unnamed/part_002`), of the shared-WebSocket helper
(`src/unnamed/part_000`), of `MatrixPlayground.handleMsg`, and of
`ChatBar.send`.  JavaScript truthiness of the string fields is modelled
by comparison with the empty string, `undefined` optional fields by
`Option`/the empty list (the source normalises them with `|| []` and
`|| ""` at every use site).
-/

namespace EigenPlayground

/-- Role of one conversation turn (`'user' | 'ai'` in the source). -/
inductive Role where
  | user : Role
  | ai : Role
deriving DecidableEq, Repr

/-- One entry of a `conversationHistory` array: `{role, content}`. -/
structure ChatTurn where
  role : Role
  content : String
deriving DecidableEq, Repr

/-- One value of the `bubbleMessages` record (the per-anchor thread state
kept by `FlowingDoc`): `{userComment, aiReply?, conversationHistory?}`.
A missing `conversationHistory` is normalised to `[]` by the source
(`|| []`), a missing `aiReply` to `none`. -/
structure BubbleEntry where
  userComment : String
  aiReply : Option String
  conversationHistory : List ChatTurn
deriving DecidableEq, Repr

/-- JavaScript truthiness of an optional string field (`undefined` and
`""` are falsy). -/
def optTruthy (o : Option String) : Bool :=
  o.getD "" ≠ ""

/-- Model of JavaScript's `String.prototype.trim()`: drop whitespace
from both ends.  (Defined over the character list so that it is fully
computable by the kernel.) -/
def jsTrim (s : String) : String :=
  String.mk (((s.data.dropWhile Char.isWhitespace).reverse.dropWhile
    Char.isWhitespace).reverse)

/-- The role of the last history entry, if any. -/
def lastRole (h : List ChatTurn) : Option Role :=
  h.getLast?.map (·.role)

/-- The content of the most recent USER entry of a history, if any. -/
def lastUserContent (h : List ChatTurn) : Option String :=
  ((h.filter (fun t => t.role = Role.user)).getLast?).map (·.content)

/-- Roles of a history, in order. -/
def roles (h : List ChatTurn) : List Role :=
  h.map (·.role)

/-- Thread status as defined by the spec data model: `DRAFT` iff no
turns, `PENDING` iff the last turn is USER, `SETTLED` iff the last turn
is ASSISTANT.  The source keeps no explicit status field; this derived
accessor is used to state the claims. -/
inductive ThreadStatus where
  | draft : ThreadStatus
  | pending : ThreadStatus
  | settled : ThreadStatus
deriving DecidableEq, Repr

/-- Status of a bubble entry, derived from the last turn's role. -/
def bubbleStatus (b : BubbleEntry) : ThreadStatus :=
  match lastRole b.conversationHistory with
  | none => ThreadStatus.draft
  | some Role.user => ThreadStatus.pending
  | some Role.ai => ThreadStatus.settled

/-- `handleReply`'s state update for an anchor whose `bubbleMessages`
entry exists (src/unnamed/part_002 lines 371-402): if the history is
empty and `userComment` is truthy, seed `[user userComment, ai text]`;
otherwise, if the history is nonempty and its last entry is a user turn,
append the AI reply; if the last entry is already an AI turn, leave the
history unchanged (duplicate reply discarded).  The `aiReply` mirror
field is always set to the incoming text. -/
def handleReplyState (text : String) (b : BubbleEntry) : BubbleEntry :=
  let h := b.conversationHistory
  let h' :=
    if h.length = 0 ∧ b.userComment ≠ "" then
      [⟨Role.user, b.userComment⟩, ⟨Role.ai, text⟩]
    else if 0 < h.length then
      if lastRole h = some Role.user then h ++ [⟨Role.ai, text⟩] else h
    else h
  { b with aiReply := some text, conversationHistory := h' }

/-- `handleReply`'s full state update (src/unnamed/part_002 lines
371-417), including the orphan-reply path: when no entry exists for the
anchor, a fresh one is synthesized from the displayed span's text
(`document.getElementById(targetId)?.textContent || ""`, passed here as
`snippet`).  The updater is a total function: it cannot throw, and the
whole handler body is additionally wrapped in try/catch in the source. -/
def handleReplyUpdate (snippet text : String) : Option BubbleEntry → BubbleEntry
  | some b => handleReplyState text b
  | none =>
    { userComment := snippet
      aiReply := some text
      conversationHistory := [⟨Role.user, snippet⟩, ⟨Role.ai, text⟩] }

/-- The conversation history `handleReply` builds for the DOM rendering
of the bubble (src/unnamed/part_002 lines 148-170): empty previous
history is seeded with `[user userComment, ai text]`; a trailing user
turn gets the AI reply appended; any other trailing turn triggers the
repair path, which pushes a corrective duplicate of `userComment` and
then the AI reply. -/
def handleReplyDomHistory (text : String) (b : Option BubbleEntry) : List ChatTurn :=
  let userComment := (b.map (·.userComment)).getD ""
  let prevHistory := (b.map (·.conversationHistory)).getD []
  if prevHistory.length = 0 then
    [⟨Role.user, userComment⟩, ⟨Role.ai, text⟩]
  else if lastRole prevHistory = some Role.user then
    prevHistory ++ [⟨Role.ai, text⟩]
  else
    prevHistory ++ [⟨Role.user, userComment⟩, ⟨Role.ai, text⟩]

/-- An outbound frame, reduced to the fields the claims mention.  The
source's `comment` frames also carry `targetId`, `snippet`, `paragraph`
and an optional `isFollowup` flag. -/
structure OutFrame where
  kind : String
  text : String
deriving DecidableEq, Repr

/-- The initial-comment submit handler of `updateBubbleContent`
(src/unnamed/part_002 lines 651-713): the textarea value is trimmed and
an empty result aborts before any state change or send (lines 656-660).
Otherwise the optimistic state update of lines 670-699 runs (seeding the
history from `userComment`/`aiReply` when it is empty, then appending
the new user turn) and a `comment` frame with the trimmed text is
sent. -/
def submitCommentUpdate (content : String) (b : Option BubbleEntry) :
    Option BubbleEntry × Option OutFrame :=
  let commentText := jsTrim content
  if commentText = "" then (b, none)
  else
    let existing := b.getD ⟨"", none, []⟩
    let h0 := existing.conversationHistory
    let h1 :=
      if h0.length = 0 ∧ existing.userComment ≠ "" then
        [ChatTurn.mk Role.user existing.userComment] ++
          (if optTruthy existing.aiReply then
            [ChatTurn.mk Role.ai (existing.aiReply.getD "")] else [])
      else h0
    let h2 := h1 ++ [⟨Role.user, commentText⟩]
    (some ⟨commentText, none, h2⟩, some ⟨"comment", commentText⟩)

/-- The follow-up submit handler of `updateBubbleContent`
(src/unnamed/part_002 lines 887-947): trimmed-empty input aborts (lines
892-895); otherwise the new user turn is appended to the history, the
latest `userComment` is replaced and `aiReply` cleared (lines 906-932),
and a `comment` frame with `isFollowup: true` is sent. -/
def followUpUpdate (content : String) (b : Option BubbleEntry) :
    Option BubbleEntry × Option OutFrame :=
  let followUpText := jsTrim content
  if followUpText = "" then (b, none)
  else
    let existing := b.getD ⟨"", none, []⟩
    let h := existing.conversationHistory ++ [⟨Role.user, followUpText⟩]
    (some { existing with
              userComment := followUpText
              aiReply := none
              conversationHistory := h },
     some ⟨"comment", followUpText⟩)

/-- The follow-up handler registered by `handleReply` on the reply form
it renders (src/unnamed/part_002 lines 284-311): trimmed-empty input
aborts (lines 288-289); otherwise a fresh record is written whose
history is the previous one with the new user turn appended. -/
def followUpAfterReplyUpdate (content : String) (b : Option BubbleEntry) :
    Option BubbleEntry × Option OutFrame :=
  let followUpText := jsTrim content
  if followUpText = "" then (b, none)
  else
    let h0 := (b.map (·.conversationHistory)).getD []
    (some ⟨followUpText, none, h0 ++ [⟨Role.user, followUpText⟩]⟩,
     some ⟨"comment", followUpText⟩)

/-- `createCommentBubble`'s state initialisation (src/unnamed/part_002
lines 438-445): the anchor's entry is unconditionally reset to an empty
draft record. -/
def createBubbleInit : Option BubbleEntry → Option BubbleEntry :=
  fun _ => some ⟨"", none, []⟩

/-- One operation on a single anchor's thread state, as performed by the
source's handlers. -/
inductive StoreOp where
  | createBubble : StoreOp
  | submitComment (content : String) : StoreOp
  | followUp (content : String) : StoreOp
  | followUpAfterReply (content : String) : StoreOp
  | applyReply (snippet text : String) : StoreOp
deriving DecidableEq, Repr

/-- Apply one operation to the (possibly absent) thread state. -/
def applyOp : StoreOp → Option BubbleEntry → Option BubbleEntry
  | StoreOp.createBubble, b => createBubbleInit b
  | StoreOp.submitComment c, b => (submitCommentUpdate c b).1
  | StoreOp.followUp c, b => (followUpUpdate c b).1
  | StoreOp.followUpAfterReply c, b => (followUpAfterReplyUpdate c b).1
  | StoreOp.applyReply s t, b => some (handleReplyUpdate s t b)

/-- Run a sequence of operations from a starting state. -/
def runOps (ops : List StoreOp) (b : Option BubbleEntry) : Option BubbleEntry :=
  ops.foldl (fun s o => applyOp o s) b

/-- The history held by an optional thread state. -/
def historyOf (b : Option BubbleEntry) : List ChatTurn :=
  (b.map (·.conversationHistory)).getD []

/-- The other role. -/
def flipRole : Role → Role
  | Role.user => Role.ai
  | Role.ai => Role.user

/-- Strict alternation of roles expected from `e`: the list must read
`e, flip e, e, …`.  `strictAlt` is the spec's invariant "turns alternate
strictly USER, ASSISTANT, USER, … starting with USER". -/
def altFrom : Role → List Role → Bool
  | _, [] => true
  | e, r :: rest => decide (r = e) && altFrom (flipRole e) rest

/-- The role expected next after consuming `l` starting from `e`. -/
def afterRoles (e : Role) (l : List Role) : Role :=
  l.foldl (fun x _ => flipRole x) e

/-- Strict alternation starting with USER. -/
def strictAlt (l : List Role) : Bool :=
  altFrom Role.user l

/-- The weaker invariant the store actually maintains: the history (if
nonempty) starts with a USER turn and never contains two consecutive
ASSISTANT turns.  Consecutive USER turns are possible when a follow-up
is submitted before the previous reply lands. -/
def GoodHistory (h : List ChatTurn) : Prop :=
  (∀ r ∈ (roles h).head?, r = Role.user) ∧
    (roles h).Chain' (fun a b => a = Role.ai → b ≠ Role.ai)

/-- Lift of `GoodHistory` to the optional thread state. -/
def GoodState (b : Option BubbleEntry) : Prop :=
  GoodHistory (historyOf b)

/-- An inbound frame as seen by a message handler: either unparseable
text (JSON.parse throws on it) or a parsed object with an optional
`kind` and the payload fields the handlers read. -/
inductive InFrame where
  | malformed : InFrame
  | frame (kind : Option String) (text : String) (targetId : String) : InFrame
deriving DecidableEq, Repr

/-- `MatrixPlayground`'s message handler
(src/frontend/src/components/MatrixPlayground.tsx lines 97-102): it
calls `JSON.parse` with no try/catch, so an unparseable frame makes the
handler throw (modelled as `Except.error ()`); otherwise it dispatches a
`narrative` event carrying the frame's text exactly when the frame's
`kind` equals `"matrix"` (the returned `Option String` is the dispatched
event detail). -/
def handleMsg : InFrame → Except Unit (Option String)
  | InFrame.malformed => Except.error ()
  | InFrame.frame kind text _ =>
    Except.ok (if kind = some "matrix" then some text else none)

/-- The `FlowingDoc` component's paragraph list (`paras`) and its
`bubbleMessages` record (anchor id → thread state). -/
structure DocState where
  paras : List String
  bubbles : List (String × BubbleEntry)
deriving DecidableEq, Repr

/-- Read an anchor's entry from the `bubbleMessages` record. -/
def getEntry (m : List (String × BubbleEntry)) (k : String) : Option BubbleEntry :=
  (m.find? (fun p => p.1 == k)).map (·.2)

/-- Write an anchor's entry in the `bubbleMessages` record. -/
def setEntry (m : List (String × BubbleEntry)) (k : String) (v : BubbleEntry) :
    List (String × BubbleEntry) :=
  if (m.find? (fun p => p.1 == k)).isSome then
    m.map (fun p => if p.1 == k then (k, v) else p)
  else m ++ [(k, v)]

/-- `FlowingDoc`'s WebSocket `onmessage` handler (src/unnamed/part_002
lines 59-77): the whole body is wrapped in try/catch, so an unparseable
frame is dropped and the state is unchanged; a `reply` frame runs
`handleReply` for its target (with `snippet` the displayed span text); a
`chat-reply` frame appends a robot-prefixed line to `paras`; every other
kind (missing or unknown) is ignored. -/
def flowingOnMessage (snippet : String) : InFrame → DocState → DocState
  | InFrame.malformed, st => st
  | InFrame.frame kind text targetId, st =>
    if kind = some "reply" then
      { st with bubbles := (setEntry st.bubbles targetId
          (handleReplyUpdate snippet text (getEntry st.bubbles targetId))) }
    else if kind = some "chat-reply" then
      { st with paras := st.paras ++ ["🤖 " ++ text] }
    else st

/-- Process a list of inbound frames in arrival order. -/
def processFrames (snippet : String) (frames : List InFrame) (st : DocState) : DocState :=
  frames.foldl (fun s f => flowingOnMessage snippet f s) st

/-- `FlowingDoc`'s `narrative` event handler (src/unnamed/part_002 lines
88-92): the paragraph list is replaced by the singleton `[detail]`,
every `.comment-bubble` element is removed from the document, and
`bubbleMessages` is reset to the empty record. -/
def narrativeHandler (detail : String) (_st : DocState) : DocState :=
  { paras := [detail], bubbles := [] }

/-- `FlowingDoc`'s `doc-append` event handler (src/unnamed/part_002
lines 95-97): the detail line is appended to the paragraph list. -/
def appendHandler (detail : String) (st : DocState) : DocState :=
  { st with paras := st.paras ++ [detail] }

/-- WebSocket readyState values (lifecycle states of a channel). -/
inductive ReadyState where
  | connecting : ReadyState
  | opened : ReadyState
  | closing : ReadyState
  | closed : ReadyState
deriving DecidableEq, Repr

/-- A connection is outstanding while it has not been closed. -/
def live (s : ReadyState) : Bool :=
  s ≠ ReadyState.closed

/-- The process-wide connection picture: how many `new WebSocket(...)`
calls have been made, the module-level shared `ws` variable of
src/unnamed/part_000 (with its current readyState), and the sockets
opened directly by components that bypass the helper. -/
structure WsWorld where
  openedCount : Nat
  shared : Option ReadyState
  others : List ReadyState
deriving DecidableEq, Repr

/-- `getWebSocket` (src/unnamed/part_000 lines 29-35): if the shared
socket is absent, CLOSED or CLOSING, a new connection is opened and
stored; otherwise the existing one is returned unchanged. -/
def getWebSocket (w : WsWorld) : WsWorld :=
  if (match w.shared with
      | none => true
      | some st => st = ReadyState.closed ∨ st = ReadyState.closing) then
    { w with openedCount := w.openedCount + 1, shared := some ReadyState.connecting }
  else w

/-- `FlowingDoc`'s mount effect (src/unnamed/part_002 lines 38-45): it
constructs its own `new WebSocket(wsUrl)` unconditionally, bypassing
`getWebSocket` (as do ChatDrawer, NarrativePane and the legacy
ChatBar). -/
def flowingDocMount (w : WsWorld) : WsWorld :=
  { w with openedCount := w.openedCount + 1,
           others := w.others ++ [ReadyState.connecting] }

/-- Number of outstanding (not yet closed) physical connections. -/
def outstanding (w : WsWorld) : Nat :=
  (match w.shared with
   | some st => if live st then 1 else 0
   | none => 0) +
    (w.others.filter live).length

/-- The anchor id minted by `createCommentOnSelection`
(src/unnamed/part_002 line 1078) and by `NarrativePane.handleMouseUp`
(line 46 of NarrativePane.tsx): `` `sel-${Date.now()}` ``, i.e. the
decimal representation of the current millisecond timestamp.  `now k` is
the `Date.now()` reading observed by the `k`-th invocation. -/
def anchorId (t : Nat) : String :=
  "sel-" ++ Nat.repr t

/-- Anchor id of the `k`-th `createAnchor` invocation under the clock
readings `now`. -/
def anchorIdAt (now : Nat → Nat) (k : Nat) : String :=
  anchorId (now k)

/-- `ChatBar.send` (src/frontend/src/components/ChatBar.tsx, the shared
socket variant, lines 60-68): a whitespace-only input aborts before
anything happens; otherwise a `chat` frame with the (untrimmed) input is
sent and a user-prefixed line is dispatched to the transcript via
`doc-append`. -/
def chatSend (input : String) : Option (OutFrame × String) :=
  if jsTrim input = "" then none
  else some (⟨"chat", input⟩, "🧑 " ++ input)

/-- Decode a decimal digit string back to a number. -/
def decodeDigits (l : List Char) : Nat :=
  l.foldl (fun a c => 10 * a + (c.toNat - 48)) 0



/-! ## Helper lemmas -/

theorem roles_append (h1 h2 : List ChatTurn) :
    roles (h1 ++ h2) = roles h1 ++ roles h2 :=
  List.map_append _ h1 h2

theorem getLast?_roles (h : List ChatTurn) :
    (roles h).getLast? = (lastRole h).map id := by
  simp [roles, lastRole, List.getLast?_map]

theorem goodHistory_nil : GoodHistory [] :=
  ⟨by simp [roles], List.chain'_nil⟩

theorem goodHistory_single (s : String) : GoodHistory [⟨Role.user, s⟩] :=
  ⟨by simp [roles], by simp [roles]⟩

theorem goodHistory_pair (u text : String) :
    GoodHistory [⟨Role.user, u⟩, ⟨Role.ai, text⟩] := by
  refine ⟨?_, ?_⟩
  · simp [roles]
  · simp only [roles, List.map]
    exact List.chain'_cons.mpr ⟨by simp, List.chain'_singleton _⟩

theorem goodHistory_append_user (h : List ChatTurn) (s : String)
    (hg : GoodHistory h) : GoodHistory (h ++ [⟨Role.user, s⟩]) := by
  obtain ⟨hhead, hchain⟩ := hg
  refine ⟨?_, ?_⟩
  · intro r hr
    cases h with
    | nil => simp [roles] at hr; simp [hr]
    | cons t ts =>
      exact hhead r (by simpa [roles] using hr)
  · rw [roles_append]
    refine List.chain'_append.mpr ⟨hchain, List.chain'_singleton _, ?_⟩
    intro x _ y hy
    simp [roles] at hy
    subst hy
    intro _ hcon
    exact absurd hcon (by simp)

theorem goodHistory_append_ai (h : List ChatTurn) (s : String)
    (hg : GoodHistory h) (hl : lastRole h = some Role.user) :
    GoodHistory (h ++ [⟨Role.ai, s⟩]) := by
  obtain ⟨hhead, hchain⟩ := hg
  have hne : h ≠ [] := by
    intro he; rw [he] at hl; simp [lastRole] at hl
  refine ⟨?_, ?_⟩
  · intro r hr
    cases h with
    | nil => exact absurd rfl hne
    | cons t ts =>
      apply hhead r
      simpa [roles] using hr
  · rw [roles_append]
    refine List.chain'_append.mpr ⟨hchain, List.chain'_singleton _, ?_⟩
    intro x hx y hy
    rw [getLast?_roles, hl] at hx
    simp at hx
    subst hx
    intro hcon
    exact absurd hcon (by simp)

theorem goodState_of_getD (b : Option BubbleEntry) (hg : GoodState b) :
    GoodHistory (b.getD ⟨"", none, []⟩).conversationHistory := by
  cases b with
  | none => exact goodHistory_nil
  | some x => exact hg

/-- Every single store operation preserves the alternation-weakening
invariant `GoodState`. -/
theorem applyOp_preserves_good (o : StoreOp) (b : Option BubbleEntry)
    (hg : GoodState b) : GoodState (applyOp o b) := by
  cases o with
  | createBubble =>
    exact goodHistory_nil
  | submitComment c =>
    simp only [applyOp, submitCommentUpdate]
    by_cases hc : jsTrim c = ""
    · simpa [hc] using hg
    · rw [if_neg hc]
      have hg0 := goodState_of_getD b hg
      by_cases hseed : (b.getD ⟨"", none, []⟩).conversationHistory.length = 0 ∧
          (b.getD ⟨"", none, []⟩).userComment ≠ ""
      · rw [if_pos hseed]
        by_cases hai : optTruthy (b.getD ⟨"", none, []⟩).aiReply = true
        · rw [if_pos hai]
          show GoodHistory _
          simp only [List.singleton_append]
          exact goodHistory_append_user _ _ (goodHistory_pair _ _)
        · rw [if_neg hai]
          show GoodHistory _
          simp only [List.append_nil]
          exact goodHistory_append_user _ _ (goodHistory_single _)
      · rw [if_neg hseed]
        show GoodHistory _
        exact goodHistory_append_user _ _ hg0
  | followUp c =>
    simp only [applyOp, followUpUpdate]
    by_cases hc : jsTrim c = ""
    · simpa [hc] using hg
    · rw [if_neg hc]
      have hg0 := goodState_of_getD b hg
      show GoodHistory _
      exact goodHistory_append_user _ _ hg0
  | followUpAfterReply c =>
    simp only [applyOp, followUpAfterReplyUpdate]
    by_cases hc : jsTrim c = ""
    · simpa [hc] using hg
    · rw [if_neg hc]
      have hg0 : GoodHistory ((b.map (·.conversationHistory)).getD []) := by
        cases b with
        | none => exact goodHistory_nil
        | some x => exact hg
      show GoodHistory _
      exact goodHistory_append_user _ _ hg0
  | applyReply s t =>
    cases b with
    | none =>
      show GoodHistory _
      exact goodHistory_pair _ _
    | some x =>
      show GoodState (some (handleReplyState t x))
      show GoodHistory (handleReplyState t x).conversationHistory
      simp only [handleReplyState]
      by_cases hseed : x.conversationHistory.length = 0 ∧ x.userComment ≠ ""
      · rw [if_pos hseed]
        exact goodHistory_pair _ _
      · rw [if_neg hseed]
        by_cases hlen : 0 < x.conversationHistory.length
        · rw [if_pos hlen]
          by_cases hlast : lastRole x.conversationHistory = some Role.user
          · rw [if_pos hlast]
            exact goodHistory_append_ai _ _ hg hlast
          · rw [if_neg hlast]
            exact hg
        · rw [if_neg hlen]
          exact hg



theorem altFrom_append (l m : List Role) (e : Role) :
    altFrom e (l ++ m) = (altFrom e l && altFrom (afterRoles e l) m) := by
  induction l generalizing e with
  | nil => simp [altFrom, afterRoles]
  | cons r rest ih =>
    simp only [List.cons_append, altFrom, afterRoles, List.foldl, List.append_eq]
    rw [ih (flipRole e)]
    simp [afterRoles, Bool.and_assoc]

theorem altFrom_getLast (l : List Role) (e r : Role)
    (ha : altFrom e l = true) (hl : l.getLast? = some r) :
    afterRoles e l = flipRole r := by
  induction l generalizing e with
  | nil => simp at hl
  | cons x rest ih =>
    simp only [altFrom, Bool.and_eq_true, decide_eq_true_eq] at ha
    obtain ⟨hx, hrest⟩ := ha
    cases rest with
    | nil =>
      simp at hl
      simp [afterRoles, List.foldl, ← hx, ← hl]
    | cons y ys =>
      rw [List.getLast?_cons_cons] at hl
      have := ih (flipRole e) hrest hl
      simpa [afterRoles, List.foldl] using this

/-- The store state reached from nothing by any operation sequence. -/
theorem runOps_good (ops : List StoreOp) :
    ∀ b : Option BubbleEntry, GoodState b → GoodState (runOps ops b) := by
  induction ops with
  | nil => intro b hb; exact hb
  | cons o os ih =>
    intro b hb
    exact ih _ (applyOp_preserves_good o b hb)

/-! ## Claims -/

/-- C1 (counterexample): the strict-alternation claim fails on the code.
Create an anchor, submit the initial comment "x", and submit the
follow-up "y" before any reply arrives: the authoritative
`conversationHistory` then reads USER "x", USER "y" — two consecutive
USER turns — so after that operation the roles do not strictly
alternate. -/
theorem C1_counterexample :
    roles (historyOf (runOps
        [StoreOp.createBubble, StoreOp.submitComment "x", StoreOp.followUp "y"] none))
      = [Role.user, Role.user]
    ∧ strictAlt (roles (historyOf (runOps
        [StoreOp.createBubble, StoreOp.submitComment "x", StoreOp.followUp "y"] none)))
      = false := by
  exact ⟨by decide, by decide⟩

/-- C1 (amended): after every finite sequence of store operations
(creation, initial comment, either follow-up variant, inbound reply —
including duplicates and out-of-order calls), the thread's history
starts with a USER turn and never contains two consecutive ASSISTANT
turns.  Strict USER/ASSISTANT alternation, however, is violated whenever
a second user turn is submitted before the previous reply lands. -/
theorem C1_alternation_weak_invariant (ops : List StoreOp) :
    GoodState (runOps ops none) :=
  runOps_good ops none goodHistory_nil

/-- C2: when a thread exists and its last turn is ASSISTANT (so a direct
append would give two ASSISTANT turns in a row), the conversation
history `handleReply` renders (src/unnamed/part_002 lines 148-170)
repairs: it appends a duplicate of the most recent USER content (which
is the stored `userComment`, by hypothesis `hmatch`) and then the
ASSISTANT reply; the reply is the last turn (not dropped) and strict
alternation is preserved. -/
theorem C2_reply_repair (b : BubbleEntry) (text : String)
    (hlast : lastRole b.conversationHistory = some Role.ai)
    (hmatch : lastUserContent b.conversationHistory = some b.userComment) :
    handleReplyDomHistory text (some b)
        = b.conversationHistory ++
            [⟨Role.user, (lastUserContent b.conversationHistory).getD ""⟩, ⟨Role.ai, text⟩]
      ∧ (handleReplyDomHistory text (some b)).getLast? = some ⟨Role.ai, text⟩
      ∧ (strictAlt (roles b.conversationHistory) = true →
          strictAlt (roles (handleReplyDomHistory text (some b))) = true) := by
  rw [hmatch]
  simp only [Option.getD_some]
  have hne : b.conversationHistory ≠ [] := by
    intro he; rw [he] at hlast; simp [lastRole] at hlast
  have hlen : ¬ b.conversationHistory.length = 0 := by
    simpa [List.length_eq_zero] using hne
  have hnu : ¬ lastRole b.conversationHistory = some Role.user := by
    rw [hlast]; simp
  have heq : handleReplyDomHistory text (some b)
      = b.conversationHistory ++ [⟨Role.user, b.userComment⟩, ⟨Role.ai, text⟩] := by
    simp only [handleReplyDomHistory, Option.map_some', Option.getD_some]
    rw [if_neg hlen, if_neg hnu]
  refine ⟨heq, ?_, ?_⟩
  · rw [heq]
    rw [show b.conversationHistory ++ [ChatTurn.mk Role.user b.userComment, ChatTurn.mk Role.ai text]
        = (b.conversationHistory ++ [ChatTurn.mk Role.user b.userComment]) ++ [ChatTurn.mk Role.ai text] by
      simp]
    exact List.getLast?_concat _
  · intro hsa
    rw [heq, roles_append]
    unfold strictAlt at hsa ⊢
    rw [altFrom_append, hsa, Bool.true_and]
    have hlr : (roles b.conversationHistory).getLast? = some Role.ai := by
      rw [getLast?_roles, hlast]; rfl
    rw [altFrom_getLast _ _ _ hsa hlr]
    rfl

/-- C2 witness. -/
theorem C2_reply_repair_witness :
    handleReplyDomHistory "z" (some ⟨"x", some "y", [⟨Role.user, "x"⟩, ⟨Role.ai, "y"⟩]⟩)
        = [⟨Role.user, "x"⟩, ⟨Role.ai, "y"⟩] ++
            [⟨Role.user, (lastUserContent [⟨Role.user, "x"⟩, ⟨Role.ai, "y"⟩]).getD ""⟩,
             ⟨Role.ai, "z"⟩]
      ∧ (handleReplyDomHistory "z" (some ⟨"x", some "y", [⟨Role.user, "x"⟩, ⟨Role.ai, "y"⟩]⟩)).getLast?
        = some ⟨Role.ai, "z"⟩
      ∧ (strictAlt (roles [⟨Role.user, "x"⟩, ⟨Role.ai, "y"⟩]) = true →
          strictAlt (roles (handleReplyDomHistory "z"
            (some ⟨"x", some "y", [⟨Role.user, "x"⟩, ⟨Role.ai, "y"⟩]⟩))) = true) :=
  C2_reply_repair ⟨"x", some "y", [⟨Role.user, "x"⟩, ⟨Role.ai, "y"⟩]⟩ "z" (by decide) (by decide)

/-- C3: if the thread's last turn is already ASSISTANT, the
authoritative store update of `applyAssistantReply`
(src/unnamed/part_002 lines 371-402) discards the reply: the turn list
and the latest user comment are unchanged, the status stays SETTLED, and
a second identical call is idempotent. -/
theorem C3_duplicate_reply_discarded (b : BubbleEntry) (text : String)
    (hlast : lastRole b.conversationHistory = some Role.ai) :
    (handleReplyState text b).conversationHistory = b.conversationHistory
      ∧ (handleReplyState text b).userComment = b.userComment
      ∧ bubbleStatus (handleReplyState text b) = ThreadStatus.settled
      ∧ bubbleStatus b = ThreadStatus.settled
      ∧ handleReplyState text (handleReplyState text b) = handleReplyState text b := by
  have hne : b.conversationHistory ≠ [] := by
    intro he; rw [he] at hlast; simp [lastRole] at hlast
  have hlen0 : ¬ (b.conversationHistory.length = 0 ∧ b.userComment ≠ "") := by
    intro hcon
    exact absurd (List.length_eq_zero.mp hcon.1) hne
  have hlen : 0 < b.conversationHistory.length := by
    cases hl : b.conversationHistory with
    | nil => exact absurd hl hne
    | cons t ts => simp [hl]
  have hnu : ¬ lastRole b.conversationHistory = some Role.user := by
    rw [hlast]; simp
  have hkey : handleReplyState text b
      = { b with aiReply := some text } := by
    simp only [handleReplyState]
    rw [if_neg hlen0, if_pos hlen, if_neg hnu]
  refine ⟨by rw [hkey], by rw [hkey], ?_, ?_, ?_⟩
  · rw [hkey]
    simp [bubbleStatus, hlast]
  · simp [bubbleStatus, hlast]
  · rw [hkey]
    have h2 : handleReplyState text { b with aiReply := some text }
        = { { b with aiReply := some text } with aiReply := some text } := by
      simp only [handleReplyState]
      rw [if_neg hlen0, if_pos hlen, if_neg hnu]
    rw [h2]

/-- C3 witness. -/
theorem C3_duplicate_reply_discarded_witness :
    (handleReplyState "z" ⟨"x", some "y", [⟨Role.user, "x"⟩, ⟨Role.ai, "y"⟩]⟩).conversationHistory
        = [⟨Role.user, "x"⟩, ⟨Role.ai, "y"⟩]
      ∧ (handleReplyState "z" ⟨"x", some "y", [⟨Role.user, "x"⟩, ⟨Role.ai, "y"⟩]⟩).userComment = "x"
      ∧ bubbleStatus (handleReplyState "z" ⟨"x", some "y", [⟨Role.user, "x"⟩, ⟨Role.ai, "y"⟩]⟩)
        = ThreadStatus.settled
      ∧ bubbleStatus ⟨"x", some "y", [⟨Role.user, "x"⟩, ⟨Role.ai, "y"⟩]⟩ = ThreadStatus.settled
      ∧ handleReplyState "z" (handleReplyState "z" ⟨"x", some "y", [⟨Role.user, "x"⟩, ⟨Role.ai, "y"⟩]⟩)
        = handleReplyState "z" ⟨"x", some "y", [⟨Role.user, "x"⟩, ⟨Role.ai, "y"⟩]⟩ :=
  C3_duplicate_reply_discarded ⟨"x", some "y", [⟨Role.user, "x"⟩, ⟨Role.ai, "y"⟩]⟩ "z" (by decide)

/-- C4: a reply for an anchor with no thread does not throw (the update
is a total function) and synthesizes the thread
`[{USER, snippet}, {ASSISTANT, content}]` from the anchor's displayed
snippet text, with status SETTLED. -/
theorem C4_orphan_reply_synthesis (snippet text : String) :
    handleReplyUpdate snippet text none
        = ⟨snippet, some text, [⟨Role.user, snippet⟩, ⟨Role.ai, text⟩]⟩
      ∧ bubbleStatus (handleReplyUpdate snippet text none) = ThreadStatus.settled :=
  ⟨rfl, rfl⟩



/-- C5 (counterexample): a chat-originated transcript line appended
before the session-reset event does NOT remain present: the `narrative`
handler replaces the whole paragraph list with the singleton narration
line, wiping the earlier chat line "🧑 hi". -/
theorem C5_counterexample :
    narrativeHandler "Matrix is now singular" (appendHandler "🧑 hi" ⟨[], []⟩)
        = ⟨["Matrix is now singular"], []⟩
      ∧ "🧑 hi" ∉ (narrativeHandler "Matrix is now singular"
          (appendHandler "🧑 hi" ⟨[], []⟩)).paras :=
  ⟨rfl, by decide⟩

/-- C5 (amended): when the session-reset event fires with line L, the
transcript becomes exactly the singleton [L] and every anchor and its
thread is removed — including any chat-originated lines appended before
the event (chat lines survive only if appended after it). -/
theorem C5_session_reset (detail : String) (st : DocState) :
    narrativeHandler detail st = ⟨[detail], []⟩ :=
  rfl

/-- C6 (counterexample): `acquire()` is not the only place a physical
connection is opened and more than one can be outstanding: starting from
no connection, one `getWebSocket()` call followed by `FlowingDoc`'s
mount effect (which runs `new WebSocket(wsUrl)` directly) leaves two
outstanding connections. -/
theorem C6_counterexample :
    outstanding (flowingDocMount (getWebSocket ⟨0, none, []⟩)) = 2
      ∧ ¬ outstanding (flowingDocMount (getWebSocket ⟨0, none, []⟩)) ≤ 1 :=
  ⟨by decide, by decide⟩

/-- C6 (amended): `getWebSocket` itself never duplicates the shared
channel: whenever the shared channel exists and is neither CLOSED nor
CLOSING, the call returns the world unchanged — same channel, no new
physical connection.  (Other components, however, open their own
sockets, as the counterexample shows.) -/
theorem C6_acquire_reuses_channel (w : WsWorld) (st : ReadyState)
    (hsh : w.shared = some st)
    (hc1 : st ≠ ReadyState.closed) (hc2 : st ≠ ReadyState.closing) :
    getWebSocket w = w := by
  simp only [getWebSocket, hsh]
  rw [if_neg]
  simp [hc1, hc2]

/-- C6 witness. -/
theorem C6_acquire_reuses_channel_witness :
    getWebSocket ⟨1, some ReadyState.opened, []⟩ = ⟨1, some ReadyState.opened, []⟩ :=
  C6_acquire_reuses_channel ⟨1, some ReadyState.opened, []⟩ ReadyState.opened rfl
    (by decide) (by decide)

/-- C7 (counterexample): a frame of kind "narration" does NOT trigger
the narration event, while a frame of kind "matrix" does — so the
narration-triggering kind is "matrix", not "narration" as the spec
says. -/
theorem C7_counterexample :
    handleMsg (InFrame.frame (some "narration") "hello" "") = Except.ok none
      ∧ handleMsg (InFrame.frame (some "matrix") "hello" "") = Except.ok (some "hello") :=
  ⟨rfl, rfl⟩

/-- C7 (amended): for every parsed inbound frame, the narration event
(carrying the frame's text) is dispatched exactly when the frame's kind
equals "matrix". -/
theorem C7_narration_kind_is_matrix (kind : Option String) (text targetId : String) :
    handleMsg (InFrame.frame kind text targetId) = Except.ok (some text)
      ↔ kind = some "matrix" := by
  simp only [handleMsg]
  by_cases hk : kind = some "matrix"
  · simp [hk]
  · simp [hk]

/-- C8 (counterexample): `MatrixPlayground`'s message handler calls
`JSON.parse` without try/catch, so it throws on a frame that fails JSON
parsing — refuting "no subscriber's message handler throws on malformed
input". -/
theorem C8_counterexample :
    handleMsg InFrame.malformed = Except.error () :=
  rfl

/-- C8 (amended): `FlowingDoc`'s handler (whose body is wrapped in
try/catch) drops malformed frames and ignores frames whose kind is
missing or unknown, leaving its state unchanged, and subsequent frames
are still processed; but the handler that parses without try/catch
(`MatrixPlayground.handleMsg`, likewise ChatBar/NarrativePane/ChatDrawer)
throws on a JSON parse failure. -/
theorem C8_malformed_frames_dropped (snippet : String) (fr : InFrame)
    (rest : List InFrame) (st : DocState)
    (hbad : fr = InFrame.malformed ∨
      ∃ kind text targetId, fr = InFrame.frame kind text targetId
        ∧ kind ≠ some "reply" ∧ kind ≠ some "chat-reply") :
    flowingOnMessage snippet fr st = st
      ∧ processFrames snippet (fr :: rest) st = processFrames snippet rest st
      ∧ (fr = InFrame.malformed → handleMsg fr = Except.error ()) := by
  have hdrop : flowingOnMessage snippet fr st = st := by
    rcases hbad with hm | ⟨kind, text, targetId, hfr, hk1, hk2⟩
    · rw [hm]; rfl
    · rw [hfr]
      simp only [flowingOnMessage]
      rw [if_neg hk1, if_neg hk2]
  refine ⟨hdrop, ?_, ?_⟩
  · show processFrames snippet rest (flowingOnMessage snippet fr st) = _
    rw [hdrop]
  · intro hm
    rw [hm]; rfl

/-- C8 witness. -/
theorem C8_malformed_frames_dropped_witness :
    flowingOnMessage "" InFrame.malformed ⟨["p"], []⟩ = ⟨["p"], []⟩
      ∧ processFrames "" (InFrame.malformed :: [InFrame.frame (some "chat-reply") "t" ""]) ⟨["p"], []⟩
        = processFrames "" [InFrame.frame (some "chat-reply") "t" ""] ⟨["p"], []⟩
      ∧ (InFrame.malformed = InFrame.malformed →
          handleMsg InFrame.malformed = Except.error ()) :=
  C8_malformed_frames_dropped "" InFrame.malformed [InFrame.frame (some "chat-reply") "t" ""]
    ⟨["p"], []⟩ (Or.inl rfl)



/-! ## Decimal-representation round trip (for anchor-id uniqueness) -/

theorem toDigitsCore_shift (f n : Nat) (acc : List Char) :
    Nat.toDigitsCore 10 f n acc = Nat.toDigitsCore 10 f n [] ++ acc := by
  induction f generalizing n acc with
  | zero => simp [Nat.toDigitsCore]
  | succ f ih =>
    simp only [Nat.toDigitsCore]
    by_cases h : n / 10 = 0
    · simp [h]
    · simp only [h, if_false]
      rw [ih (n / 10) (Nat.digitChar (n % 10) :: acc), ih (n / 10) [Nat.digitChar (n % 10)]]
      simp

theorem digitChar_toNat (r : Nat) (h : r < 10) : (Nat.digitChar r).toNat = 48 + r := by
  interval_cases r <;> decide

theorem decode_toDigitsCore (f n : Nat) (h : n < f) :
    decodeDigits (Nat.toDigitsCore 10 f n []) = n := by
  induction f generalizing n with
  | zero => omega
  | succ f ih =>
    simp only [Nat.toDigitsCore]
    by_cases h0 : n / 10 = 0
    · have hn : n < 10 := by omega
      simp [h0, decodeDigits, digitChar_toNat (n % 10) (Nat.mod_lt _ (by norm_num))]
      omega
    · simp only [h0, if_false]
      rw [toDigitsCore_shift]
      have hd : n / 10 < f := by
        have h1 : n / 10 < n := Nat.div_lt_self (by omega) (by norm_num)
        omega
      have hrec := ih (n / 10) hd
      simp [decodeDigits, List.foldl_append] at hrec ⊢
      rw [hrec, digitChar_toNat (n % 10) (Nat.mod_lt _ (by norm_num))]
      omega

/-- The decimal representation of a natural number determines it. -/
theorem natRepr_injective (m n : Nat) (h : Nat.repr m = Nat.repr n) : m = n := by
  have hm := decode_toDigitsCore (m + 1) m (Nat.lt_succ_self m)
  have hn := decode_toDigitsCore (n + 1) n (Nat.lt_succ_self n)
  simp only [Nat.repr, Nat.toDigits, List.asString] at h
  have hlist : Nat.toDigitsCore 10 (m + 1) m [] = Nat.toDigitsCore 10 (n + 1) n [] := by
    injection h
  rw [hlist] at hm
  omega

/-- C9 (counterexample): two distinct `createAnchor` invocations that
observe the same `Date.now()` millisecond reading mint the SAME id, so
ids are not unique within the document's lifetime. -/
theorem C9_counterexample :
    anchorIdAt (fun _ => 100) 0 = anchorIdAt (fun _ => 100) 1 ∧ (0 : Nat) ≠ 1 :=
  ⟨rfl, by decide⟩

/-- C9 (amended): two `createAnchor` invocations mint distinct ids
whenever their `Date.now()` readings differ; only invocations within the
same millisecond collide. -/
theorem C9_distinct_times_distinct_ids (now : Nat → Nat) (k1 k2 : Nat)
    (h : now k1 ≠ now k2) :
    anchorIdAt now k1 ≠ anchorIdAt now k2 := by
  intro he
  apply h
  apply natRepr_injective
  have hdata := congrArg String.data he
  simp only [anchorIdAt, anchorId, String.data_append] at hdata
  have hrepr : (Nat.repr (now k1)).data = (Nat.repr (now k2)).data :=
    List.append_cancel_left hdata
  cases hr1 : Nat.repr (now k1)
  cases hr2 : Nat.repr (now k2)
  rw [hr1, hr2] at hrepr
  simpa using congrArg String.mk hrepr

/-- C9 witness. -/
theorem C9_distinct_times_distinct_ids_witness :
    anchorIdAt (fun k => k) 0 ≠ anchorIdAt (fun k => k) 1 :=
  C9_distinct_times_distinct_ids (fun k => k) 0 1 (by decide)

/-- C10: whitespace-only content makes every submit operation a no-op:
the initial-comment handler, both follow-up handlers and the chat send
all abort before mutating any thread or transcript and before sending
any frame. -/
theorem C10_blank_submit_noop (s : String) (b : Option BubbleEntry)
    (h : jsTrim s = "") :
    submitCommentUpdate s b = (b, none)
      ∧ followUpUpdate s b = (b, none)
      ∧ followUpAfterReplyUpdate s b = (b, none)
      ∧ chatSend s = none := by
  refine ⟨?_, ?_, ?_, ?_⟩
  · simp [submitCommentUpdate, h]
  · simp [followUpUpdate, h]
  · simp [followUpAfterReplyUpdate, h]
  · simp [chatSend, h]

/-- C10 witness. -/
theorem C10_blank_submit_noop_witness :
    submitCommentUpdate "  " none = (none, none)
      ∧ followUpUpdate "  " none = (none, none)
      ∧ followUpAfterReplyUpdate "  " none = (none, none)
      ∧ chatSend "  " = none :=
  C10_blank_submit_noop "  " none (by decide)


end EigenPlayground
